import Mathlib

/-!
Shallow embedding of `src/main.py` (webcam monitor): the poll-model loop
(`monitor_webcam_windows`), the stream-model loop (`monitor_webcam_mac`),
the notification sinks (`play_beep`, `notify_mobile`) and the entry point
(`main`).  Python strings are modelled as `List Char`; machine state is the
boolean `was_in_use` (`true` = Active, `false` = Idle).
-/

namespace Coptimize

/-- Edge events: Started (Idle→Active) and Stopped (Active→Idle). -/
inductive EdgeKind
  | started
  | stopped
deriving DecidableEq, Repr

/-- State-change detection, `main.py` lines 229-237: emit Started when
`in_use and not was_in_use`, Stopped when `not in_use and was_in_use`,
nothing otherwise. -/
def detectEdge (was inUse : Bool) : Option EdgeKind :=
  if inUse && !was then some EdgeKind.started
  else if !inUse && was then some EdgeKind.stopped
  else none

/-- One event slot per tick of the windows poll loop over a sequence of
normalized in-use states, threading `was_in_use` exactly as lines 229-237
do (the stored state is overwritten with the current one each tick). -/
def winEventsAux (was : Bool) : List Bool → List (Option EdgeKind)
  | [] => []
  | t :: ts => detectEdge was t :: winEventsAux t ts

/-- The poll loop started from `was_in_use = False` (line 161). -/
def winEvents (ticks : List Bool) : List (Option EdgeKind) :=
  winEventsAux false ticks

theorem winEventsAux_length (was : Bool) (ts : List Bool) :
    (winEventsAux was ts).length = ts.length := by
  induction ts generalizing was with
  | nil => rfl
  | cons t ts ih => simpa [winEventsAux] using ih t

theorem winEventsAux_getD (was : Bool) (ts : List Bool) (i : Nat)
    (h : i < ts.length) :
    (winEventsAux was ts).getD i none
      = detectEdge ((was :: ts).getD i false) (ts.getD i false) := by
  induction ts generalizing was i with
  | nil => simp at h
  | cons t ts ih =>
    cases i with
    | zero => rfl
    | succ j =>
      have hj : j < ts.length := by simpa using h
      simpa [winEventsAux] using ih t j hj

theorem detectEdge_ne_none_iff (a b : Bool) :
    detectEdge a b ≠ none ↔ b ≠ a := by
  cases a <;> cases b <;> decide

/-- A consumer record of the consent store: its subkey name and its
`LastUsedTimeStop` value (`none` models a `FileNotFoundError` from
`QueryValueEx`, i.e. the sub-value is missing). -/
structure ConsumerRec where
  name : String
  lastStop : Option Nat
deriving DecidableEq, Repr

/-- A record is currently active when `LastUsedTimeStop == 0`
(lines 183, 211); a missing sub-value is skipped, i.e. not active. -/
def recActive (r : ConsumerRec) : Bool :=
  r.lastStop == some 0

/-- Scan of the packaged group, lines 173-192: skip the subkey named
"NonPackaged", set `in_use` on the first record with `LastUsedTimeStop == 0`
and break out of the enumeration. -/
def scanPackaged : List ConsumerRec → Bool
  | [] => false
  | r :: rs =>
    if r.name = "NonPackaged" then scanPackaged rs
    else if recActive r then true
    else scanPackaged rs

/-- Scan of the non-packaged group, lines 204-220: break on the first
active record. -/
def scanNonPackaged : List ConsumerRec → Bool
  | [] => false
  | r :: rs => if recActive r then true else scanNonPackaged rs

/-- One registry sample, lines 165-223: `in_use` starts false; the packaged
group is enumerated first (a missing store key, modelled by `none`, yields
no evidence, lines 194-195); the non-packaged group is only opened when
`in_use` is still false (line 198). -/
def winSample (packaged nonpackaged : Option (List ConsumerRec)) : Bool :=
  let inUse := match packaged with
    | none => false
    | some rs => scanPackaged rs
  if inUse then true
  else match nonpackaged with
    | none => false
    | some rs => scanNonPackaged rs

/-- Outcome of the enumeration inside the `try` of lines 166-224: either it
completes with the two (possibly missing) groups, or an exception other
than `FileNotFoundError`/`OSError` is raised after the listed packaged
records were scanned; the `except` clause at line 225 only prints, so
`in_use` keeps the value computed up to the raise. -/
inductive EnumOutcome
  | ok (packaged nonpackaged : Option (List ConsumerRec))
  | errAfter (scanned : List ConsumerRec)
deriving DecidableEq, Repr

/-- The value of `in_use` reaching the state-change detection at line 229. -/
def winTickInUse : EnumOutcome → Bool
  | EnumOutcome.ok p np => winSample p np
  | EnumOutcome.errAfter rs => scanPackaged rs

/-- One full iteration of the poll loop body (lines 164-237): new stored
state and emitted event.  The detection and the `was_in_use = in_use`
assignment run unconditionally, also after a caught enumeration error. -/
def winTick (was : Bool) (o : EnumOutcome) : Bool × Option EdgeKind :=
  let inUse := winTickInUse o
  (inUse, detectEdge was inUse)

/-- The poll loop over a sequence of enumeration outcomes: one event slot
per tick; errors are caught (line 225) so every outcome yields a tick. -/
def winRunAux (was : Bool) : List EnumOutcome → List (Option EdgeKind)
  | [] => []
  | o :: os => (winTick was o).2 :: winRunAux (winTick was o).1 os

/-- Python `str.strip()` on a char-list string. -/
def pyStrip (s : List Char) : List Char :=
  ((s.dropWhile Char.isWhitespace).reverse.dropWhile Char.isWhitespace).reverse

/-- The regex `^\d{4}-\d{2}-\d{2}` of line 277. -/
def dateLike : List Char → Bool
  | a :: b :: c :: d :: '-' :: e :: f :: '-' :: g :: h :: _ =>
    a.isDigit && b.isDigit && c.isDigit && d.isDigit &&
    e.isDigit && f.isDigit && g.isDigit && h.isDigit
  | _ => false

/-- Whether the first list starts the second one. -/
def leadsWith : List Char → List Char → Bool
  | [], _ => true
  | _ :: _, [] => false
  | a :: as, b :: bs => a == b && leadsWith as bs

/-- Python substring containment (`needle in hay`). -/
def containsSub (needle : List Char) : List Char → Bool
  | [] => leadsWith needle []
  | c :: rest => leadsWith needle (c :: rest) || containsSub needle rest

/-- The start-marker token of lines 248 and 280. -/
def startMarker : List Char :=
  "AVCaptureSessionDidStartRunningNotification".toList

/-- The stop-marker token of lines 249 and 287. -/
def stopMarker : List Char :=
  "AVCaptureSessionDidStopRunningNotification".toList

/-- Result of processing one line read in the mac loop: new stored state,
emitted event, and whether the loop body terminates the monitor. -/
structure MacLineResult where
  state : Bool
  event : Option EdgeKind
  terminates : Bool
deriving DecidableEq, Repr

/-- One iteration of the mac stream loop body, lines 270-291: an empty read
(`if not line: continue`, also what `readline` returns after the child
exits) is skipped; the line is stripped; lines without a date-like prefix
are skipped; the start-marker substring is tested before the stop-marker;
a marker forces the state and emits only on change.  No branch exits the
loop, so `terminates` is false on every line. -/
def macStep (line : List Char) (was : Bool) : MacLineResult :=
  if line = [] then ⟨was, none, false⟩
  else
    let l := pyStrip line
    if !dateLike l then ⟨was, none, false⟩
    else if containsSub startMarker l then
      ⟨true, if !was then some EdgeKind.started else none, false⟩
    else if containsSub stopMarker l then
      ⟨false, if was then some EdgeKind.stopped else none, false⟩
    else ⟨was, none, false⟩

/-- One event slot per line of the mac loop, threading `was_in_use`. -/
def macEventsAux (was : Bool) : List (List Char) → List (Option EdgeKind)
  | [] => []
  | l :: ls => (macStep l was).event :: macEventsAux (macStep l was).state ls

/-- The mac loop started from `was_in_use = False` (line 266). -/
def macEvents (lines : List (List Char)) : List (Option EdgeKind) :=
  macEventsAux false lines

/-- A canonical well-formed log line forcing the given state: a date-like
prefix followed by the start (resp. stop) marker token. -/
def canonLine (b : Bool) : List Char :=
  if b then ("2024-01-01 " ++ "AVCaptureSessionDidStartRunningNotification").toList
  else ("2024-01-01 " ++ "AVCaptureSessionDidStopRunningNotification").toList

/-- Outcome of `subprocess.Popen` in `monitor_webcam_mac`, lines 254-260. -/
inductive LaunchResult
  | ok
  | failure
deriving DecidableEq, Repr

/-- Exit behaviour of the launch phase, lines 254-264: a launch failure
prints a fatal message and calls `sys.exit(1)`; on success no exit. -/
def macLaunchExitCode : LaunchResult → Option Nat
  | LaunchResult.ok => none
  | LaunchResult.failure => some 1

/-- The mac loop after the child process has exited: `readline` then
returns the empty string forever, and each iteration runs
`if not line: continue` (lines 270-272).  `n` iterations from state
`was` yield the final state and all events emitted. -/
def macRunEof : Nat → Bool → Bool × List EdgeKind
  | 0, was => (was, [])
  | n + 1, was =>
    let r := macStep [] was
    let rest := macRunEof n r.state
    (rest.1, r.event.toList ++ rest.2)

/-- Truncation of the `details` field in `notify_mobile`, line 118:
`details[:500] if details else ""` (an empty/falsy string is sent as
the empty string, otherwise the slice keeps at most 500 characters). -/
def truncateDetails (details : List Char) : List Char :=
  if details = [] then [] else details.take 500

/-- `play_beep`, lines 129-151: the underlying sound call (winsound /
afplay) may raise, modelled by an `Except` argument; on Windows and Darwin
the call sits inside a `try` whose `except` only prints, and the fallback
branch prints a terminal bell that cannot fail.  Returns whether the
function returned without propagating an exception, and the logged error
message if any. -/
def play_beep (osName : String) (soundCall : Except String Unit) :
    Bool × Option String :=
  if osName = "Windows" then
    match soundCall with
    | Except.ok _ => (true, none)
    | Except.error e => (true, some e)
  else if osName = "Darwin" then
    match soundCall with
    | Except.ok _ => (true, none)
    | Except.error e => (true, some e)
  else (true, none)

/-- `notify_mobile`, lines 98-123: returns immediately when Firebase is
not enabled; otherwise the push call sits inside a `try` whose `except`
only prints.  Returns whether the function returned without propagating,
and the logged error message if any. -/
def notify_mobile (enabled : Bool) (pushCall : Except String Unit) :
    Bool × Option String :=
  if !enabled then (true, none)
  else
    match pushCall with
    | Except.ok _ => (true, none)
    | Except.error e => (true, some e)

/-- Which sinks ran for one emitted event, and whether a sink failure
escaped into the monitor loop. -/
structure SinkRun where
  beepInvoked : Bool
  pushInvoked : Bool
  aborted : Bool
deriving DecidableEq, Repr

/-- The Started branch of the loop body (lines 230-232): `play_beep()`
then `notify_mobile('start')`, sequentially; the second call runs only if
the first returned, and the loop is aborted only if either call lets an
exception escape. -/
def emitStarted (osName : String) (enabled : Bool)
    (beepCall pushCall : Except String Unit) : SinkRun :=
  let b := play_beep osName beepCall
  if b.1 then
    let p := notify_mobile enabled pushCall
    ⟨true, true, !p.1⟩
  else ⟨true, false, true⟩

/-- Sink invocations per edge event, lines 229-237 (and 280-291): the
Started branch calls `play_beep` and `notify_mobile('start')`; the Stopped
branch calls only `notify_mobile('stop')`. -/
def dispatchEvent : EdgeKind → Bool × Option String
  | EdgeKind.started => (true, some "start")
  | EdgeKind.stopped => (false, some "stop")

/-- Number of audio-sink invocations over a run of the poll loop. -/
def runBeeps (ticks : List Bool) : Nat :=
  ((winEvents ticks).filterMap id).countP (fun e => (dispatchEvent e).1)

/-- Number of remote-push invocations over a run of the poll loop. -/
def runPushes (ticks : List Bool) : Nat :=
  ((winEvents ticks).filterMap id).countP (fun e => (dispatchEvent e).2.isSome)

/-- `main`, lines 316-338, as a function of the host platform, the stream
launch outcome and whether a `KeyboardInterrupt` arrives: exit code
(`none` = the loop runs forever) and the edge events emitted before exit.
Windows runs the poll loop over `ticks`; Darwin first launches the stream
(`sys.exit(1)` on failure, before any event) and then runs over `lines`;
any other platform prints an error and calls `sys.exit(1)` without
invoking a monitor; a `KeyboardInterrupt` is caught at line 336 and turned
into `sys.exit(0)`. -/
def mainRun (osName : String) (launch : LaunchResult) (interrupted : Bool)
    (ticks : List Bool) (lines : List (List Char)) :
    Option Nat × List EdgeKind :=
  if osName = "Windows" then
    ((if interrupted then some 0 else none), (winEvents ticks).filterMap id)
  else if osName = "Darwin" then
    match launch with
    | LaunchResult.failure => (some 1, [])
    | LaunchResult.ok =>
      ((if interrupted then some 0 else none), (macEvents lines).filterMap id)
  else (some 1, [])

theorem scanPackaged_eq (rs : List ConsumerRec) :
    scanPackaged rs = (rs.filter fun r => !(r.name == "NonPackaged")).any recActive := by
  induction rs with
  | nil => rfl
  | cons r rs ih =>
    by_cases hn : r.name = "NonPackaged"
    · simp [scanPackaged, hn, ih]
    · by_cases ha : recActive r = true
      · simp [scanPackaged, hn, ha]
      · simp [scanPackaged, hn, ha, ih]

theorem scanNonPackaged_eq (rs : List ConsumerRec) :
    scanNonPackaged rs = rs.any recActive := by
  induction rs with
  | nil => rfl
  | cons r rs ih =>
    by_cases ha : recActive r = true
    · simp [scanNonPackaged, ha]
    · simp [scanNonPackaged, ha, ih]

theorem detectEdge_self (b : Bool) : detectEdge b b = none := by
  cases b <;> rfl

theorem macStep_event_eq (line : List Char) (was : Bool) :
    (macStep line was).event = detectEdge was (macStep line was).state := by
  by_cases h0 : line = []
  · simp [macStep, h0, detectEdge_self]
  · by_cases h1 : dateLike (pyStrip line) = true
    · by_cases h2 : containsSub startMarker (pyStrip line) = true
      · cases was <;> simp [macStep, h0, h1, h2, detectEdge]
      · by_cases h3 : containsSub stopMarker (pyStrip line) = true
        · cases was <;> simp [macStep, h0, h1, h2, h3, detectEdge]
        · simp [macStep, h0, h1, h2, h3, detectEdge_self]
    · simp [macStep, h0, h1, detectEdge_self]

theorem macStep_canon (b was : Bool) :
    macStep (canonLine b) was = ⟨b, detectEdge was b, false⟩ := by
  cases b <;> cases was <;> decide

theorem mac_win_aux (was : Bool) (ts : List Bool) :
    macEventsAux was (ts.map canonLine) = winEventsAux was ts := by
  induction ts generalizing was with
  | nil => rfl
  | cons t ts ih =>
    simp [macEventsAux, winEventsAux, macStep_canon, ih]

theorem winRunAux_length (was : Bool) (os : List EnumOutcome) :
    (winRunAux was os).length = os.length := by
  induction os generalizing was with
  | nil => rfl
  | cons o os ih => simpa [winRunAux] using ih (winTick was o).1

/-- Claim C1, counterexample: the stored state is initialized to `False`
(line 161 resp. 266), not left unset, so a first observed Active state
emits a Started event in both platform variants — the very first observed
state does not merely seed the stored state. -/
theorem c1_first_tick_counterexample :
    (winEvents [true]).getD 0 none = some EdgeKind.started
    ∧ (macEvents [canonLine true]).getD 0 none = some EdgeKind.started := by
  decide

/-- Claim C1, amended: an edge event is emitted at a tick if and only if
the state at that tick differs from the previously stored state, where the
stored state before the first tick is Idle (`false`); consequently a first
Active tick emits Started and a first Idle tick emits nothing.  The mac
stream loop run on well-formed marker lines emits exactly the same events
as the poll loop on the corresponding normalized states. -/
theorem c1_edge_iff_change_amended (ticks : List Bool) (i : Nat)
    (h : i < ticks.length) :
    (((winEvents ticks).getD i none ≠ none) ↔
      ticks.getD i false ≠ (false :: ticks).getD i false)
    ∧ macEvents (ticks.map canonLine) = winEvents ticks := by
  constructor
  · rw [winEvents, winEventsAux_getD false ticks i h, detectEdge_ne_none_iff]
  · simp only [macEvents, winEvents]
    exact mac_win_aux false ticks

theorem c1_edge_iff_change_amended_witness :
    (((winEvents [false, true]).getD 1 none ≠ none) ↔
      [false, true].getD 1 false ≠ (false :: [false, true]).getD 1 false)
    ∧ macEvents ([false, true].map canonLine) = winEvents [false, true] :=
  c1_edge_iff_change_amended [false, true] 1 (by decide)

/-- Claim C2, counterexample: an enumeration error with previous state
Active and no active record scanned before the raise yields state Idle and
a Stopped event for that tick — the previous `ActivityState` is not
retained, because `in_use` was reset to `False` at line 165 and the
`except` clause at line 225 only prints before detection runs. -/
theorem c2_retention_counterexample :
    winTick true (EnumOutcome.errAfter []) = (false, some EdgeKind.stopped) := by
  decide

/-- Claim C2, amended: on an enumeration error the loop does not crash
(every outcome, error included, still produces exactly one tick), but the
tick's state is the partial in-use value computed from the records scanned
before the error — not the retained previous state — so an edge event can
be emitted as a consequence of the error alone. -/
theorem c2_error_tick_amended (was : Bool) (scanned : List ConsumerRec)
    (os : List EnumOutcome) :
    winTick was (EnumOutcome.errAfter scanned)
      = ((scanned.filter fun r => !(r.name == "NonPackaged")).any recActive,
         detectEdge was
           ((scanned.filter fun r => !(r.name == "NonPackaged")).any recActive))
    ∧ (winRunAux was os).length = os.length := by
  refine ⟨?_, winRunAux_length was os⟩
  have h1 : winTick was (EnumOutcome.errAfter scanned)
      = (scanPackaged scanned, detectEdge was (scanPackaged scanned)) := rfl
  rw [h1, scanPackaged_eq]

/-- Claim C3, counterexample: after the child process exits, `readline`
returns the empty string and the loop body merely skips it
(`if not line: continue`, lines 271-272): 64 further iterations neither
terminate the monitor nor emit anything, so a child exit is not surfaced
as a fatal condition — the monitor keeps running without any activity
signal. -/
theorem c3_child_exit_counterexample :
    (macStep [] true).terminates = false
    ∧ (macStep [] true).event = none
    ∧ macRunEof 64 true = (true, []) := by
  decide

/-- Claim C3, amended: a failure to launch the log-streaming child process
is fatal and surfaced distinctly (exit code 1, lines 261-264), while a
successful launch does not exit; but a child process that exits after
launch is not detected — every empty read is skipped and arbitrarily many
iterations keep the monitor running with no events and no termination. -/
theorem c3_launch_fatal_amended (n : Nat) (was : Bool) :
    macLaunchExitCode LaunchResult.failure = some 1
    ∧ macLaunchExitCode LaunchResult.ok = none
    ∧ (macStep [] was).terminates = false
    ∧ macRunEof n was = (was, []) := by
  refine ⟨rfl, rfl, rfl, ?_⟩
  induction n with
  | zero => rfl
  | succ m ih => simp [macRunEof, macStep, ih]

/-- Claim C4: in the poll model, for any combination of consumer records
in the packaged and non-packaged groups, the computed overall state is
Active iff at least one consumer record in either group is active
(`LastUsedTimeStop == 0`); and the break-on-first-active short-circuit
scan computes the same value as a full scan of all records. -/
theorem c4_or_semantics (p np : List ConsumerRec) :
    (winSample (some p) (some np) = true ↔
      ((∃ r ∈ p, r.name ≠ "NonPackaged" ∧ recActive r = true)
        ∨ ∃ r ∈ np, recActive r = true))
    ∧ winSample (some p) (some np)
      = ((p.filter fun r => !(r.name == "NonPackaged")) ++ np).any recActive := by
  have hw : winSample (some p) (some np)
      = (scanPackaged p || scanNonPackaged np) := by
    unfold winSample
    by_cases h : scanPackaged p = true <;> simp [h]
  constructor
  · rw [hw, scanPackaged_eq, scanNonPackaged_eq]
    simp [List.any_eq_true, List.mem_filter, and_assoc]
  · rw [hw, scanPackaged_eq, scanNonPackaged_eq, List.any_append]

/-- Claim C5: edge emission is idempotent — whenever processing a reading
(equal poll states, or a repeated marker line) leaves the stored state
unchanged, no event is emitted: repeated Active readings while already
Active never re-emit Started, and symmetrically for Stopped/Idle. -/
theorem c5_idempotence (line : List Char) (was : Bool)
    (h : (macStep line was).state = was) :
    detectEdge was was = none ∧ (macStep line was).event = none := by
  refine ⟨detectEdge_self was, ?_⟩
  rw [macStep_event_eq, h, detectEdge_self]

theorem c5_idempotence_witness :
    detectEdge true true = none
    ∧ (macStep (canonLine true) true).event = none :=
  c5_idempotence (canonLine true) true (by decide)

/-- Claim C6: the `details` field of a remote-push notification is the
input detail string truncated to at most 500 characters — a string longer
than 500 is cut to exactly its first 500 characters, a string of length at
most 500 passes through unchanged, and an empty detail is sent as the
empty string. -/
theorem c6_detail_truncation (d : List Char) :
    (500 < d.length →
      truncateDetails d = d.take 500 ∧ (truncateDetails d).length = 500)
    ∧ (d.length ≤ 500 → truncateDetails d = d)
    ∧ truncateDetails [] = [] := by
  refine ⟨?_, ?_, rfl⟩
  · intro h
    have hne : d ≠ [] := by
      intro he
      rw [he] at h
      simp at h
    refine ⟨by simp [truncateDetails, hne], ?_⟩
    simp [truncateDetails, hne]
    omega
  · intro h
    by_cases he : d = []
    · simp [truncateDetails, he]
    · simp [truncateDetails, he, List.take_of_length_le h]

set_option maxRecDepth 4096 in
theorem c6_detail_truncation_witness :
    (truncateDetails (List.replicate 501 'x')).length = 500
    ∧ truncateDetails ("ok".toList) = "ok".toList :=
  ⟨((c6_detail_truncation (List.replicate 501 'x')).1 (by simp)).2,
   (c6_detail_truncation ("ok".toList)).2.1 (by decide)⟩

/-- Claim C7: the audio sink runs only for Started events (silent no-op
for Stopped), the remote push sink runs for both kinds; on the poll-model
scenario `[inactive, inactive, active, active, inactive]` the events are
Started at tick 3 and Stopped at tick 5, the audio sink is invoked exactly
once and the remote sink exactly twice. -/
theorem c7_sink_dispatch_scenarioA :
    (dispatchEvent EdgeKind.started).1 = true
    ∧ (dispatchEvent EdgeKind.stopped).1 = false
    ∧ (dispatchEvent EdgeKind.started).2 = some "start"
    ∧ (dispatchEvent EdgeKind.stopped).2 = some "stop"
    ∧ winEvents [false, false, true, true, false]
        = [none, none, some EdgeKind.started, none, some EdgeKind.stopped]
    ∧ runBeeps [false, false, true, true, false] = 1
    ∧ runPushes [false, false, true, true, false] = 2 := by
  decide

/-- Claim C8: sink failures are isolated — for any platform, Firebase
configuration and failure outcomes of the underlying sound and push calls,
both sinks are invoked for a Started event, a failure in one sink does not
prevent the other from running, and no sink failure propagates out to
abort the monitor loop. -/
theorem c8_sink_isolation (osName : String) (enabled : Bool)
    (beepCall pushCall : Except String Unit) :
    emitStarted osName enabled beepCall pushCall = ⟨true, true, false⟩
    ∧ (notify_mobile enabled pushCall).1 = true
    ∧ (play_beep osName beepCall).1 = true := by
  unfold emitStarted play_beep notify_mobile
  cases beepCall <;> cases pushCall <;> cases enabled <;>
    by_cases hw : osName = "Windows" <;> by_cases hd : osName = "Darwin" <;>
      simp [hw, hd]

/-- Claim C9: the process exits with code 0 on a graceful interrupt on
either supported platform, with code 1 on an unsupported host platform or
on a fatal stream launch failure, and in both fatal cases zero edge events
are emitted before exit. -/
theorem c9_exit_codes (osName : String) (launch : LaunchResult) (i : Bool)
    (ticks : List Bool) (lines : List (List Char))
    (hW : osName ≠ "Windows") (hD : osName ≠ "Darwin") :
    mainRun osName launch i ticks lines = (some 1, [])
    ∧ (mainRun "Windows" launch true ticks lines).1 = some 0
    ∧ (mainRun "Darwin" LaunchResult.ok true ticks lines).1 = some 0
    ∧ mainRun "Darwin" LaunchResult.failure i ticks lines = (some 1, []) := by
  refine ⟨by simp [mainRun, hW, hD], rfl, rfl, rfl⟩

theorem c9_exit_codes_witness :
    mainRun "Linux" LaunchResult.ok false [] [] = (some 1, [])
    ∧ (mainRun "Windows" LaunchResult.ok true [] []).1 = some 0
    ∧ (mainRun "Darwin" LaunchResult.ok true [] []).1 = some 0
    ∧ mainRun "Darwin" LaunchResult.failure false [] [] = (some 1, []) :=
  c9_exit_codes "Linux" LaunchResult.ok false [] [] (by decide) (by decide)

/-- Claim C10: a stripped log line with a date-like prefix containing both
the start-marker and the stop-marker substring is classified by the start
check, which is evaluated first (lines 280-287), so the state after
processing it is Active and the emitted event is never Stopped. -/
theorem c10_start_marker_precedence (line : List Char) (was : Bool)
    (hd : dateLike (pyStrip line) = true)
    (hs : containsSub startMarker (pyStrip line) = true)
    (_ht : containsSub stopMarker (pyStrip line) = true) :
    (macStep line was).state = true
    ∧ (macStep line was).event ≠ some EdgeKind.stopped := by
  have hne : line ≠ [] := by
    intro h
    rw [h] at hd
    simp [pyStrip, dateLike] at hd
  unfold macStep
  rw [if_neg hne]
  simp only [hd, hs, Bool.not_true, Bool.false_eq_true, if_false, if_true]
  cases was <;> simp

theorem c10_start_marker_precedence_witness :
    (macStep ("2024-01-01 AVCaptureSessionDidStartRunningNotification AVCaptureSessionDidStopRunningNotification".toList) false).state = true
    ∧ (macStep ("2024-01-01 AVCaptureSessionDidStartRunningNotification AVCaptureSessionDidStopRunningNotification".toList) false).event
        ≠ some EdgeKind.stopped :=
  c10_start_marker_precedence
    ("2024-01-01 AVCaptureSessionDidStartRunningNotification AVCaptureSessionDidStopRunningNotification".toList)
    false (by decide) (by decide) (by decide)

end Coptimize
